import Mathlib

/-!
Shallow embedding of `skater/core/global_interpretation/feature_importance.py`
(the `FeatureImportance` class) and proofs about it.

Conventions of the embedding:
* machine floats become `ℚ` (exact arithmetic; "within floating-point
  tolerance" statements become exact equalities);
* a prediction array is a `List (List ℚ)`: one inner list per row.  A
  one-dimensional prediction array is represented with singleton rows,
  which is exactly what the `changes[:, np.newaxis]` step of the source produces;
* fallible Python code returns `Except SkaterError`;
* external collaborators that live outside the sampled source file
  (`DataManager.generate_sample`, `DataManager.generate_column_sample`,
  `divide_zerosafe`, the scorer, the worker pool) are modelled at their
  interface, from the description in the specification, and are marked as such
  in their doc comments.
-/

namespace Skater

/-- The exception kinds raised by `feature_importance.py`:
`FeatureImportanceError`, `KeyError` (unrecognized method), Python
`AssertionError` (filter-class validation), `ValueError`, and the
abstract exception raised by a failing `Pool(n_jobs)` constructor call
(line 111; in Python a `ValueError`, `OSError`, pickling error, etc.,
abstracted here into one kind). -/
inductive SkaterError where
  | featureImportanceError (msg : String)
  | keyError (msg : String)
  | assertionError (msg : String)
  | valueError (msg : String)
  | poolCreationError (msg : String)
  deriving Repr, DecidableEq

/-- Embeds `StaticTypes.scorer_types`: the monotonicity tag of a scorer
(`increasing` = higher is better, `decreasing` = lower is better). -/
inductive ScorerType where
  | increasing
  | decreasing
  deriving Repr, DecidableEq

/-- Modelled from the spec: the Scorer collaborator, a callable
`(labels, predictions, sample_weight) -> number` together with its
monotonicity `type`.  Labels and sample weights are optional, matching the
`None` defaults in the source. -/
structure ScorerSpec where
  score : Option (List ℚ) → List (List ℚ) → Option (List ℚ) → ℚ
  type : ScorerType

/-- Embeds the Python builtin `max` over a (nonempty, in practice) array; the empty
case is given a default so the definition is total. -/
def listMax (l : List ℚ) : ℚ := l.foldl max (l.headD 0)

/-- Embeds the Python builtin `min` over a (nonempty, in practice) array. -/
def listMin (l : List ℚ) : ℚ := l.foldl min (l.headD 0)

/-- Embeds `np.mean` of a one-dimensional array (sum divided by length; `0` for
the empty array, where numpy yields NaN). -/
def listMean (l : List ℚ) : ℚ := l.sum / (l.length : ℚ)

/-- Embeds `np.mean` of a two-dimensional array: the mean of all entries of the
flattened array. -/
def matrixMean (m : List (List ℚ)) : ℚ :=
  (m.map List.sum).sum / (((m.map List.length).sum : ℕ) : ℚ)

/-- Embeds `FeatureImportance.importance_scaler` from the source:
`scales = abs(perturbed_x - original_x) / (max(original_x) - min(original_x))`
followed by `if sum(scales == 0): scales = np.ones(perturbed_x.shape[0])`.
Note that `sum(scales == 0)` counts the rows whose scale is zero, so the
fallback to all-ones triggers as soon as ANY row has a zero scale. -/
def importance_scaler (original_x perturbed_x : List ℚ) : List ℚ :=
  let scales := List.zipWith
    (fun p o => |p - o| / (listMax original_x - listMin original_x))
    perturbed_x original_x
  if scales.countP (fun s => decide (s = 0)) ≠ 0 then
    List.replicate perturbed_x.length 1
  else
    scales

/-- Embeds `FeatureImportance._compute_importance_via_output_variance` from the
source: absolute elementwise change in predictions; when `scaled`, row
sums of changes are weighted by `importance_scaler` before the mean, and
otherwise the mean is taken over all entries. -/
def compute_importance_via_output_variance
    (new_predictions original_predictions : List (List ℚ))
    (original_x perturbed_x : List ℚ) (scaled : Bool) : ℚ :=
  let changes_in_predictions :=
    List.zipWith (List.zipWith (fun a b => |a - b|)) new_predictions original_predictions
  if scaled then
    let scales := importance_scaler original_x perturbed_x
    listMean (List.zipWith (fun row s => row.sum * s) changes_in_predictions scales)
  else
    matrixMean changes_in_predictions

/-- Embeds `FeatureImportance._compute_importance_via_conditional_permutation`
from the source: `abs(max((score2 - score1) * multiple, 0))` with
`score1` the score of the new (perturbed) predictions, `score2` the score
of the original predictions, both with the same `sample_weight`, and
`multiple` `+1`/`-1` by scorer monotonicity. -/
def compute_importance_via_conditional_permutation
    (new_predictions original_predictions : List (List ℚ))
    (training_labels : Option (List ℚ))
    (original_x perturbed_x : List ℚ) (scorer : ScorerSpec) (scaled : Bool) : ℚ :=
  let sample_weight := if scaled then some (importance_scaler original_x perturbed_x) else none
  let score1 := scorer.score training_labels new_predictions sample_weight
  let score2 := scorer.score training_labels original_predictions sample_weight
  let multiple : ℚ := if scorer.type = ScorerType.increasing then 1 else -1
  |max ((score2 - score1) * multiple) 0|

/-- Embeds `FeatureImportance.compute_importance` from the source: dispatch on
the `method` string, raising `KeyError` for anything other than the two
recognized methods ("Unrecongized" reproduces the spelling in the source). -/
def compute_importance (new_predictions original_predictions : List (List ℚ))
    (original_x perturbed_x : List ℚ) (training_labels : Option (List ℚ))
    (method : String) (scaled : Bool) (scorer : ScorerSpec) : Except SkaterError ℚ :=
  if method = "output-variance" then
    Except.ok (compute_importance_via_output_variance new_predictions original_predictions
      original_x perturbed_x scaled)
  else if method = "conditional-permutation" then
    Except.ok (compute_importance_via_conditional_permutation new_predictions
      original_predictions training_labels original_x perturbed_x scorer scaled)
  else
    Except.error (SkaterError.keyError
      ("Unrecongized method for computing feature_importance: " ++ method))

/-- The slice of `skater.data.DataManager` used by the source file:
row-major data plus the ordered feature names. -/
structure DataManager where
  rows : List (List ℚ)
  feature_names : List String

/-- Embeds `DataManager.n_rows`. -/
def DataManager.n_rows (d : DataManager) : ℕ := d.rows.length

/-- Embeds `DataManager.feature_ids` (the ordered feature identifiers). -/
def DataManager.feature_ids (d : DataManager) : List String := d.feature_names

/-- Column read `data_set[feature_id]`. -/
def DataManager.getColumn (d : DataManager) (feature_id : String) : List ℚ :=
  d.rows.map (fun r => r.getD (d.feature_names.indexOf feature_id) 0)

/-- Column write `data_set[feature_id] = values` (producing a copy, as the
task works on `input_data.copy()`). -/
def DataManager.setColumn (d : DataManager) (feature_id : String) (vals : List ℚ) : DataManager :=
  { d with rows := List.zipWith (fun r v => r.set (d.feature_names.indexOf feature_id) v) d.rows vals }

/-- The slice of the model collaborator used by the source:
`predict`, `_get_static_predictor()` (a picklable predictor used inside
tasks), `target_names` and `scorers.default`. -/
structure Model where
  predict : List (List ℚ) → List (List ℚ)
  static_predictor : List (List ℚ) → List (List ℚ)
  target_names : List String
  default_scorer : ScorerSpec

/-- Embeds `FeatureImportance.compute_feature_importance` from the source: copy
the baseline data, read the original column of the feature, draw replacement
values with the strategy chosen by the `numeric` flag of the feature, overwrite
the column, re-predict, and delegate to `compute_importance`.
`column_sampler` is the `DataManager.generate_column_sample` collaborator
(not part of the sampled source), abstracted as a function of the feature
id, the requested count and the strategy string. -/
def compute_feature_importance (feature_id : String)
    (input_data : List (List ℚ))
    (estimator_fn : List (List ℚ) → List (List ℚ))
    (original_predictions : List (List ℚ))
    (feature_info : String → Bool)
    (feature_names : List String)
    (column_sampler : String → ℕ → String → List ℚ)
    (training_labels : Option (List ℚ))
    (method : String) (scaled : Bool) (scorer : ScorerSpec) :
    Except SkaterError (String × ℚ) :=
  let copy_of_data_set : DataManager := { rows := input_data, feature_names := feature_names }
  let n := copy_of_data_set.n_rows
  let original_values := copy_of_data_set.getColumn feature_id
  let samples :=
    if feature_info feature_id then
      column_sampler feature_id n "uniform-over-similarity-ranks"
    else
      column_sampler feature_id n "random-choice"
  let perturbed_data_set := copy_of_data_set.setColumn feature_id samples
  let new_predictions := estimator_fn perturbed_data_set.rows
  (compute_importance new_predictions original_predictions original_values samples
    training_labels method scaled scorer).map (fun v => (feature_id, v))

/-- Modelled from the spec: `skater.util.dataops.divide_zerosafe` (not in
the sampled source) — elementwise division where a position with both
numerator and denominator zero yields zero rather than NaN. -/
def divide_zerosafe (a b : ℚ) : ℚ := if a = 0 ∧ b = 0 then 0 else a / b

/-- Modelled from the spec: `DataManager.generate_sample` (not in the
sampled source) draws a uniform random subsample of rows without
replacement; the randomness is externalized into an index list `idx`, and
the subsample is the rows at those indices.  The without-replacement,
size, and in-range conditions on `idx` appear as hypotheses in theorems. -/
def generate_sample_rows (rows : List (List ℚ)) (idx : List ℕ) : List (List ℚ) :=
  idx.map (fun i => rows.getD i [])

/-- Baseline-input selection from the source:
`if n_samples <= self.data_set.n_rows:` take a subsample, `else` use the
full data. -/
def chooseInputs (data_set : DataManager) (n_samples : ℕ) (idx : List ℕ) : DataManager :=
  if n_samples ≤ data_set.n_rows then
    { rows := generate_sample_rows data_set.rows idx, feature_names := data_set.feature_names }
  else
    data_set

/-- Embeds `n_jobs = None if n_jobs < 0 else n_jobs` from the source (`none`
stands for Python `None`, i.e. "use all available parallelism"). -/
def resolveNJobs (n_jobs : ℤ) : Option ℤ := if n_jobs < 0 then none else some n_jobs

/-- The two behaviours of an already-created worker pool during one
parallel attempt (the code inside the `try` block): it either works, or
raises after having delivered some number of completed task results
(which the source then discards).  A failure of the `Pool(n_jobs)`
CONSTRUCTOR itself is a different event — in the source it happens at
line 111, outside the `try/except`, and is therefore never recovered;
it is modelled separately by the `pool_creation_fails` flag of
`FIContext`, not by this type. -/
inductive PoolBehavior where
  | ok
  | fail (completed : ℕ)
  deriving Repr, DecidableEq

/-- Sequentially collect per-task results, propagating the first task
error — the semantics of `for importance in map(fi_func, arg_list)`. -/
def collectResults : List (Except SkaterError (String × ℚ)) →
    Except SkaterError (List (String × ℚ))
  | [] => Except.ok []
  | Except.error e :: _ => Except.error e
  | Except.ok v :: rest => (collectResults rest).map (fun vs => v :: vs)

/-- One parallel attempt `for importance in mapper(fi_func, arg_list)`:
with a working pool the (pure, deterministic) tasks yield the same results
as a sequential traversal; a broken pool raises.  A task exception inside
the pool also surfaces as an exception of the attempt. -/
def parallelAttempt (pool : PoolBehavior) (tasks : List (Except SkaterError (String × ℚ))) :
    Except SkaterError (List (String × ℚ)) :=
  match pool with
  | PoolBehavior.ok => collectResults tasks
  | PoolBehavior.fail _ => Except.error (SkaterError.valueError "pool failure")

/-- The `try/except` dispatch block of `feature_importance`: inside the
`try`, `n_jobs == 1` raises `ValueError("Skipping to single processing")`
before the pool mapper is touched; any exception of the attempt is caught
by the bare `except:`, which discards the partial `importance_dicts` and
re-runs the full task list sequentially with builtin `map`. -/
def runTasks (n_jobs : Option ℤ) (pool : PoolBehavior)
    (tasks : List (Except SkaterError (String × ℚ))) :
    Except SkaterError (List (String × ℚ)) :=
  match (if n_jobs = some 1 then
          Except.error (SkaterError.valueError "Skipping to single processing")
        else parallelAttempt pool tasks) with
  | Except.ok rs => Except.ok rs
  | Except.error _ => collectResults tasks

/-- Observable execution events of one `feature_importance` call, for the
concurrency claims: the argument passed to the `Pool` constructor, whether
a pool object was constructed at all, whether the pool mapper was
invoked, and whether the sequential fallback ran. -/
structure ExecTrace where
  poolArg : Option ℤ
  poolCreated : Bool
  mapperInvoked : Bool
  ranSequentialFallback : Bool
  deriving Repr, DecidableEq

/-- The execution trace of the dispatch portion of `feature_importance`:
in the source, `executor_instance = Pool(n_jobs)` runs unconditionally
(before the `try` block), the mapper is reached exactly when the
`n_jobs == 1` guard does not raise first, and the sequential fallback runs
exactly when the guarded parallel attempt raised. -/
def featureImportanceTrace (n_jobs : ℤ) (pool : PoolBehavior)
    (tasks : List (Except SkaterError (String × ℚ))) : ExecTrace :=
  let resolved := resolveNJobs n_jobs
  let attempt := if resolved = some 1 then
      Except.error (SkaterError.valueError "Skipping to single processing")
    else parallelAttempt pool tasks
  { poolArg := resolved
    poolCreated := true
    mapperInvoked := decide (resolved ≠ some 1)
    ranSequentialFallback := match attempt with
      | Except.ok _ => false
      | Except.error _ => true }

/-- The `if filter_classes:` guard plus the subset assertion from the
source.  Python truthiness: `None` and the empty list skip the check
entirely; otherwise every member must be in `target_names`. -/
def filterClassesOk (target_names : List String) (filter_classes : Option (List String)) : Bool :=
  match filter_classes with
  | none => true
  | some l => if l.isEmpty then true else l.all (fun c => target_names.contains c)

/-- Everything a `feature_importance` call reads from its surrounding
interpretation context and collaborators: the model, the dataset, the
previously supplied training labels, the per-feature `numeric` flags, the
column sampler, the (externalized) row-subsample randomness, whether the
`Pool(n_jobs)` constructor call itself raises for this invocation
(line 111, which sits outside the `try/except`, so such a failure is
never recovered), and the behaviour of the created pool during the
parallel attempt. -/
structure FIContext where
  model : Model
  data_set : DataManager
  training_labels : Option (List ℚ)
  feature_info : String → Bool
  column_sampler : String → ℕ → String → List ℚ
  subsample_idx : List ℕ
  pool_creation_fails : Bool
  pool : PoolBehavior

/-- The fail-fast validation prefix of `feature_importance`: the
filter-class assertion, then the labels requirement of
`conditional-permutation`. -/
def fiValidate (ctx : FIContext) (filter_classes : Option (List String))
    (method : String) : Option SkaterError :=
  if ¬ filterClassesOk ctx.model.target_names filter_classes then
    some (SkaterError.assertionError
      "members of filter classes must be members of model_instance.classes")
  else if method = "conditional-permutation" ∧ ctx.training_labels = none then
    some (SkaterError.featureImportanceError
      ("If interpretation.training_labels are not set, you" ++
       "can only use feature importance methods that do " ++
       "not require ground truth labels"))
  else
    none

/-- The per-feature task list of `feature_importance`: baseline inputs are
chosen once, baseline predictions are computed once
(`original_predictions = model_instance.predict(inputs)`), and one task
per feature id closes over this shared context, exactly as the
`functools.partial(FeatureImportance.compute_feature_importance, ...)`
call does. -/
def fiTasks (ctx : FIContext) (n_samples : ℕ) (method : String) (use_scaling : Bool) :
    List (Except SkaterError (String × ℚ)) :=
  let inputs := chooseInputs ctx.data_set n_samples ctx.subsample_idx
  let original_predictions := ctx.model.predict inputs.rows
  let training_labels := if method = "conditional-permutation" then ctx.training_labels else none
  ctx.data_set.feature_ids.map (fun feature_id =>
    compute_feature_importance feature_id inputs.rows ctx.model.static_predictor
      original_predictions ctx.feature_info ctx.data_set.feature_names ctx.column_sampler
      training_labels method use_scaling ctx.model.default_scorer)

/-- Embeds `feature_importance` up to (and including) the collection of the raw
per-feature results: validate, build tasks, create the pool (an
unconditional `Pool(n_jobs)` call at line 111 whose failure propagates
directly — it is NOT inside the `try/except`, so there is no sequential
fallback for it), then dispatch with fallback. -/
def fiRaw (ctx : FIContext) (filter_classes : Option (List String)) (n_jobs : ℤ)
    (n_samples : ℕ) (method : String) (use_scaling : Bool) :
    Except SkaterError (List (String × ℚ)) :=
  match fiValidate ctx filter_classes method with
  | some e => Except.error e
  | none =>
    if ctx.pool_creation_fails then
      Except.error (SkaterError.poolCreationError "worker pool creation failed")
    else
      runTasks (resolveNJobs n_jobs) ctx.pool (fiTasks ctx n_samples method use_scaling)

/-- One step of the Python `importances.update(i)` merge of the
single-entry per-task dicts: overwrite an existing key, else append. -/
def dictUpdate (acc : List (String × ℚ)) (kv : String × ℚ) : List (String × ℚ) :=
  if acc.any (fun p => decide (p.1 = kv.1)) then
    acc.map (fun p => if p.1 = kv.1 then kv else p)
  else
    acc ++ [kv]

/-- Embeds `for i in importance_dicts: importances.update(i)` — merge the
per-task results into one insertion-ordered mapping. -/
def mergeImportances (l : List (String × ℚ)) : List (String × ℚ) := l.foldl dictUpdate []

/-- Embeds `pd.Series(importances).sort_values(ascending=ascending)`: sort the
entries by value, ascending or descending. -/
def sort_values (ascending : Bool) (l : List (String × ℚ)) : List (String × ℚ) :=
  let s := l.mergeSort (fun a b => decide (a.2 ≤ b.2))
  if ascending then s else s.reverse

/-- The message of the positivity-check `FeatureImportanceError` (the
multi-line diagnostic of the source, abbreviated to its first line). -/
def fiSumErrMsg : String :=
  "Something went wrong. Importances do not sum to a positive value"

/-- The final validation-and-normalization stage of `feature_importance`
(source lines 160-171): `if not importances.sum() > 0: raise
FeatureImportanceError(...)`, then elementwise `divide_zerosafe` by the
sum. -/
def fiFinalize (importances : List (String × ℚ)) : Except SkaterError (List (String × ℚ)) :=
  if ¬ (0 < (importances.map Prod.snd).sum) then
    Except.error (SkaterError.featureImportanceError fiSumErrMsg)
  else
    Except.ok (importances.map (fun p =>
      (p.1, divide_zerosafe p.2 ((importances.map Prod.snd).sum))))

/-- Embeds `FeatureImportance.feature_importance` from the source, end to end:
validate, choose baseline inputs, predict once, dispatch the per-feature
tasks (parallel with sequential fallback), merge, sort by value, check
that the raw importances sum to a strictly positive value, and normalize
with `divide_zerosafe`. -/
def feature_importance (ctx : FIContext) (ascending : Bool)
    (filter_classes : Option (List String)) (n_jobs : ℤ) (n_samples : ℕ)
    (method : String) (use_scaling : Bool) :
    Except SkaterError (List (String × ℚ)) :=
  match fiRaw ctx filter_classes n_jobs n_samples method use_scaling with
  | Except.error e => Except.error e
  | Except.ok importance_dicts =>
    fiFinalize (sort_values ascending (mergeImportances importance_dicts))

/-! ### Specification-side formulations (for refinement claims)

These definitions follow the words of the specification, to be compared with
the definitions translated from the source. -/

/-- The matrix of elementwise absolute differences between two prediction
arrays (spec §4.3: "differences are taken elementwise"). -/
def absDiffMatrix (new_predictions original_predictions : List (List ℚ)) : List (List ℚ) :=
  List.zipWith (List.zipWith (fun a b => |a - b|)) new_predictions original_predictions

/-- Spec §4.3, output-variance without scaling: "importance = mean
absolute difference between perturbed and original predictions" — the
mean over all elementwise absolute differences. -/
def spec_output_variance_unscaled (new_predictions original_predictions : List (List ℚ)) : ℚ :=
  listMean (absDiffMatrix new_predictions original_predictions).flatten

/-- Spec §4.3, output-variance with scaling: the absolute elementwise
differences are "summed across the extra dimension of the prediction", and each
weighted difference of a row is multiplied by the scale factor of that row, and
the importance is the mean of these weighted values. -/
def spec_output_variance_scaled (new_predictions original_predictions : List (List ℚ))
    (original_x perturbed_x : List ℚ) : ℚ :=
  listMean (List.zipWith (fun a b => a * b)
    ((absDiffMatrix new_predictions original_predictions).map List.sum)
    (importance_scaler original_x perturbed_x))

/-- Spec §4.3, conditional-permutation:
`max(0, direction * (score_before - score_after))`, with `score_before`
the scorer on (labels, baseline predictions), `score_after` the scorer on
(labels, perturbed predictions), both weighted by the same optional
per-row scale factors, and `direction` `+1` for an increasing scorer and
`-1` for a decreasing one. -/
def spec_conditional_permutation (new_predictions original_predictions : List (List ℚ))
    (training_labels : Option (List ℚ)) (original_x perturbed_x : List ℚ)
    (scorer : ScorerSpec) (scaled : Bool) : ℚ :=
  let weights := if scaled then some (importance_scaler original_x perturbed_x) else none
  let score_before := scorer.score training_labels original_predictions weights
  let score_after := scorer.score training_labels new_predictions weights
  let direction : ℚ := if scorer.type = ScorerType.increasing then 1 else -1
  max 0 (direction * (score_before - score_after))

/-! ### Helper lemmas -/

theorem collectResults_map_ok (vals : List (String × ℚ)) :
    collectResults (vals.map Except.ok) = Except.ok vals := by
  induction vals with
  | nil => rfl
  | cons v vs ih => simp [collectResults, ih, Except.map]

theorem collectResults_append_error (pre : List (String × ℚ)) (e : SkaterError)
    (post : List (Except SkaterError (String × ℚ))) :
    collectResults (pre.map Except.ok ++ Except.error e :: post) = Except.error e := by
  induction pre with
  | nil => rfl
  | cons v vs ih => simp [collectResults, ih, Except.map]

theorem runTasks_eq_collectResults (n_jobs : Option ℤ) (pool : PoolBehavior)
    (tasks : List (Except SkaterError (String × ℚ))) :
    runTasks n_jobs pool tasks = collectResults tasks := by
  unfold runTasks
  by_cases h : n_jobs = some 1
  · simp [h]
  · simp only [h, if_false, if_neg h]
    cases pool with
    | ok =>
      simp only [parallelAttempt]
      cases hc : collectResults tasks with
      | ok rs => simp
      | error e => simp
    | fail k => simp [parallelAttempt]

theorem collectResults_ok_length (tasks : List (Except SkaterError (String × ℚ)))
    (rs : List (String × ℚ)) (h : collectResults tasks = Except.ok rs) :
    rs.length = tasks.length := by
  induction tasks generalizing rs with
  | nil => simp [collectResults] at h; simp [← h]
  | cons t ts ih =>
    cases t with
    | error e => simp [collectResults] at h
    | ok v =>
      simp only [collectResults] at h
      cases hc : collectResults ts with
      | error e => rw [hc] at h; simp [Except.map] at h
      | ok vs =>
        rw [hc] at h
        simp only [Except.map, Except.ok.injEq] at h
        rw [← h]
        simp [ih vs hc]

theorem collectResults_ok_mem (tasks : List (Except SkaterError (String × ℚ)))
    (rs : List (String × ℚ)) (h : collectResults tasks = Except.ok rs)
    (r : String × ℚ) (hr : r ∈ rs) : Except.ok r ∈ tasks := by
  induction tasks generalizing rs with
  | nil =>
    simp only [collectResults, Except.ok.injEq] at h
    rw [← h] at hr
    simp at hr
  | cons t ts ih =>
    cases t with
    | error e => simp [collectResults] at h
    | ok v =>
      simp only [collectResults] at h
      cases hc : collectResults ts with
      | error e => rw [hc] at h; simp [Except.map] at h
      | ok vs =>
        rw [hc] at h
        simp only [Except.map, Except.ok.injEq] at h
        rw [← h] at hr
        rcases List.mem_cons.mp hr with h1 | h2
        · rw [h1]; exact List.mem_cons_self _ _
        · exact List.mem_cons_of_mem _ (ih vs hc h2)

theorem collectResults_map_fst {α : Type} (l : List α)
    (g : α → Except SkaterError (String × ℚ)) (key : α → String)
    (hg : ∀ a v, g a = Except.ok v → v.1 = key a)
    (rs : List (String × ℚ)) (h : collectResults (l.map g) = Except.ok rs) :
    rs.map Prod.fst = l.map key := by
  induction l generalizing rs with
  | nil => simp [collectResults] at h; simp [← h]
  | cons a as ih =>
    simp only [List.map_cons] at h
    cases hga : g a with
    | error e => rw [hga] at h; simp [collectResults] at h
    | ok v =>
      rw [hga] at h
      simp only [collectResults] at h
      cases hc : collectResults (as.map g) with
      | error e => rw [hc] at h; simp [Except.map] at h
      | ok vs =>
        rw [hc] at h
        simp [Except.map] at h
        rw [← h]
        simp [hg a v hga, ih vs hc]

theorem mem_zipWith {α β γ : Type} (f : α → β → γ) (l₁ : List α) (l₂ : List β)
    (x : γ) (h : x ∈ List.zipWith f l₁ l₂) :
    ∃ a b, a ∈ l₁ ∧ b ∈ l₂ ∧ x = f a b := by
  induction l₁ generalizing l₂ with
  | nil => simp [List.zipWith] at h
  | cons a as ih =>
    cases l₂ with
    | nil => simp [List.zipWith] at h
    | cons b bs =>
      simp only [List.zipWith, List.mem_cons] at h
      rcases h with h | h
      · exact ⟨a, b, List.mem_cons_self _ _, List.mem_cons_self _ _, h⟩
      · obtain ⟨a', b', ha, hb, he⟩ := ih bs h
        exact ⟨a', b', List.mem_cons_of_mem _ ha, List.mem_cons_of_mem _ hb, he⟩

theorem le_foldl_max (l : List ℚ) (d : ℚ) : d ≤ l.foldl max d := by
  induction l generalizing d with
  | nil => simp
  | cons x xs ih => exact le_trans (le_max_left d x) (ih (max d x))

theorem foldl_min_le (l : List ℚ) (d : ℚ) : l.foldl min d ≤ d := by
  induction l generalizing d with
  | nil => simp
  | cons x xs ih => exact le_trans (ih (min d x)) (min_le_left d x)

theorem listMin_le_listMax (l : List ℚ) : listMin l ≤ listMax l :=
  le_trans (foldl_min_le l (l.headD 0)) (le_foldl_max l (l.headD 0))

theorem importance_scaler_nonneg (original_x perturbed_x : List ℚ) :
    ∀ s ∈ importance_scaler original_x perturbed_x, 0 ≤ s := by
  intro s hs
  unfold importance_scaler at hs
  by_cases h : (List.zipWith
      (fun p o => |p - o| / (listMax original_x - listMin original_x))
      perturbed_x original_x).countP (fun s => decide (s = 0)) ≠ 0
  · rw [if_pos h] at hs
    rcases List.eq_of_mem_replicate hs with rfl
    norm_num
  · rw [if_neg h] at hs
    obtain ⟨p, o, _, _, he⟩ := mem_zipWith _ _ _ s hs
    rw [he]
    exact div_nonneg (abs_nonneg _) (sub_nonneg.mpr (listMin_le_listMax original_x))

theorem absDiff_entry_nonneg (new_predictions original_predictions : List (List ℚ))
    (row : List ℚ)
    (hrow : row ∈ List.zipWith (List.zipWith (fun a b => |a - b|))
      new_predictions original_predictions) :
    ∀ x ∈ row, 0 ≤ x := by
  intro x hx
  obtain ⟨a, b, _, _, he⟩ := mem_zipWith _ _ _ row hrow
  rw [he] at hx
  obtain ⟨u, v, _, _, hx'⟩ := mem_zipWith _ _ _ x hx
  rw [hx']
  exact abs_nonneg _

theorem output_variance_nonneg (new_predictions original_predictions : List (List ℚ))
    (original_x perturbed_x : List ℚ) (scaled : Bool) :
    0 ≤ compute_importance_via_output_variance new_predictions original_predictions
      original_x perturbed_x scaled := by
  unfold compute_importance_via_output_variance
  cases scaled with
  | false =>
    simp only [Bool.false_eq_true, if_false, matrixMean]
    apply div_nonneg
    · apply List.sum_nonneg
      intro x hx
      obtain ⟨row, hrow, he⟩ := List.mem_map.mp hx
      rw [← he]
      exact List.sum_nonneg (absDiff_entry_nonneg _ _ row hrow)
    · positivity
  | true =>
    simp only [if_true, listMean]
    apply div_nonneg
    · apply List.sum_nonneg
      intro x hx
      obtain ⟨row, s, hrow, hss, he⟩ := mem_zipWith _ _ _ x hx
      rw [he]
      exact mul_nonneg (List.sum_nonneg (absDiff_entry_nonneg _ _ row hrow))
        (importance_scaler_nonneg _ _ s hss)
    · positivity

theorem conditional_permutation_nonneg (new_predictions original_predictions : List (List ℚ))
    (training_labels : Option (List ℚ)) (original_x perturbed_x : List ℚ)
    (scorer : ScorerSpec) (scaled : Bool) :
    0 ≤ compute_importance_via_conditional_permutation new_predictions original_predictions
      training_labels original_x perturbed_x scorer scaled := by
  unfold compute_importance_via_conditional_permutation
  exact abs_nonneg _

theorem compute_importance_ok_nonneg (new_predictions original_predictions : List (List ℚ))
    (original_x perturbed_x : List ℚ) (training_labels : Option (List ℚ))
    (method : String) (scaled : Bool) (scorer : ScorerSpec) (v : ℚ)
    (h : compute_importance new_predictions original_predictions original_x perturbed_x
      training_labels method scaled scorer = Except.ok v) : 0 ≤ v := by
  unfold compute_importance at h
  split_ifs at h with h1 h2
  · simp only [Except.ok.injEq] at h
    rw [← h]
    exact output_variance_nonneg _ _ _ _ _
  · simp only [Except.ok.injEq] at h
    rw [← h]
    exact conditional_permutation_nonneg _ _ _ _ _ _ _

theorem except_map_pair_ok (fid : String) (r : Except SkaterError ℚ) (p : String × ℚ)
    (h : r.map (fun v => (fid, v)) = Except.ok p) :
    ∃ v, r = Except.ok v ∧ p = (fid, v) := by
  cases r with
  | error e => simp [Except.map] at h
  | ok v =>
    simp only [Except.map, Except.ok.injEq] at h
    exact ⟨v, rfl, h.symm⟩

theorem compute_feature_importance_ok (feature_id : String)
    (input_data : List (List ℚ)) (estimator_fn : List (List ℚ) → List (List ℚ))
    (original_predictions : List (List ℚ)) (feature_info : String → Bool)
    (feature_names : List String) (column_sampler : String → ℕ → String → List ℚ)
    (training_labels : Option (List ℚ)) (method : String) (scaled : Bool)
    (scorer : ScorerSpec) (p : String × ℚ)
    (h : compute_feature_importance feature_id input_data estimator_fn original_predictions
      feature_info feature_names column_sampler training_labels method scaled scorer =
      Except.ok p) :
    p.1 = feature_id ∧ 0 ≤ p.2 := by
  unfold compute_feature_importance at h
  obtain ⟨v, hv, hp⟩ := except_map_pair_ok _ _ _ h
  rw [hp]
  exact ⟨rfl, compute_importance_ok_nonneg _ _ _ _ _ _ _ _ _ hv⟩

theorem foldl_dictUpdate_nodup (l : List (String × ℚ)) :
    ∀ acc : List (String × ℚ), ((acc ++ l).map Prod.fst).Nodup →
    l.foldl dictUpdate acc = acc ++ l := by
  induction l with
  | nil => intro acc _; simp
  | cons kv t ih =>
    intro acc hnd
    have hkey : ¬ ∃ p ∈ acc, p.1 = kv.1 := by
      intro ⟨p, hp, he⟩
      have h1 : kv.1 ∈ (acc.map Prod.fst) := by
        rw [← he]; exact List.mem_map_of_mem _ hp
      have h2 : kv.1 ∈ ((kv :: t).map Prod.fst) := by simp
      have := (List.nodup_append.mp (by simpa using hnd)).2.2
      exact this h1 h2
    have hany : acc.any (fun p => decide (p.1 = kv.1)) = false := by
      simp only [List.any_eq_false, decide_eq_true_eq]
      intro p hp he
      exact hkey ⟨p, hp, he⟩
    have hstep : dictUpdate acc kv = acc ++ [kv] := by
      unfold dictUpdate
      rw [hany]
      simp
    have hnd' : (((acc ++ [kv]) ++ t).map Prod.fst).Nodup := by
      simpa using hnd
    calc (kv :: t).foldl dictUpdate acc = t.foldl dictUpdate (dictUpdate acc kv) := rfl
      _ = t.foldl dictUpdate (acc ++ [kv]) := by rw [hstep]
      _ = (acc ++ [kv]) ++ t := ih (acc ++ [kv]) hnd'
      _ = acc ++ kv :: t := by simp

theorem mergeImportances_eq_self (l : List (String × ℚ))
    (hnd : (l.map Prod.fst).Nodup) : mergeImportances l = l := by
  unfold mergeImportances
  simpa using foldl_dictUpdate_nodup l [] (by simpa using hnd)

theorem sort_values_perm (ascending : Bool) (l : List (String × ℚ)) :
    (sort_values ascending l).Perm l := by
  unfold sort_values
  cases ascending with
  | false => simpa using (List.reverse_perm _).trans (List.mergeSort_perm l _)
  | true => simpa using List.mergeSort_perm l _

theorem sum_map_div (l : List ℚ) (s : ℚ) :
    (l.map (fun v => v / s)).sum = l.sum / s := by
  induction l with
  | nil => simp
  | cons x xs ih => simp [ih, add_div]

theorem nodup_bounded_perm_range (idx : List ℕ) (n : ℕ) (hnd : idx.Nodup)
    (hlen : idx.length = n) (hmem : ∀ i ∈ idx, i < n) :
    idx.Perm (List.range n) := by
  apply List.perm_of_nodup_nodup_toFinset_eq hnd (List.nodup_range n)
  have hsub : idx.toFinset ⊆ Finset.range n := by
    intro x hx
    rw [Finset.mem_range]
    exact hmem x (List.mem_toFinset.mp hx)
  have hrange : (List.range n).toFinset = Finset.range n := by
    ext x; simp
  rw [hrange]
  apply Finset.eq_of_subset_of_card_le hsub
  rw [Finset.card_range, List.toFinset_card_of_nodup hnd, hlen]

theorem map_getD_range {α : Type} (l : List α) (d : α) :
    (List.range l.length).map (fun i => l.getD i d) = l := by
  apply List.ext_getElem
  · simp
  · intro i h1 h2
    simp only [List.getElem_map, List.getElem_range]
    rw [List.getD_eq_getElem?_getD, List.getElem?_eq_getElem (by simpa using h2)]
    rfl

theorem generate_sample_rows_perm (rows : List (List ℚ)) (idx : List ℕ)
    (hnd : idx.Nodup) (hlen : idx.length = rows.length)
    (hmem : ∀ i ∈ idx, i < rows.length) :
    (generate_sample_rows rows idx).Perm rows := by
  unfold generate_sample_rows
  have hperm := (nodup_bounded_perm_range idx rows.length hnd hlen hmem).map
    (fun i => rows.getD i [])
  rw [map_getD_range rows []] at hperm
  exact hperm

/-! ### Claim theorems -/

/-- C2: with method output-variance and scaling disabled, the per-feature
importance equals the mean absolute difference between the perturbed and
the baseline predictions; with scaling enabled, the absolute elementwise
differences are first summed across the extra dimension of the prediction,
the result of each row is multiplied by the scale factor of that row, and the
importance is the mean of these weighted values. -/
theorem C2_output_variance_formula (new_predictions original_predictions : List (List ℚ))
    (original_x perturbed_x : List ℚ) :
    compute_importance_via_output_variance new_predictions original_predictions
      original_x perturbed_x false
      = spec_output_variance_unscaled new_predictions original_predictions ∧
    compute_importance_via_output_variance new_predictions original_predictions
      original_x perturbed_x true
      = spec_output_variance_scaled new_predictions original_predictions
        original_x perturbed_x := by
  constructor
  · unfold compute_importance_via_output_variance spec_output_variance_unscaled
      absDiffMatrix matrixMean listMean
    simp [List.sum_flatten, List.length_flatten]
  · unfold compute_importance_via_output_variance spec_output_variance_scaled
      absDiffMatrix listMean
    rw [List.zipWith_map_left]
    simp

/-- C3: with method conditional-permutation, the per-feature importance
equals `max(0, direction * (score_before - score_after))` with
`score_before` the scorer on (labels, baseline predictions),
`score_after` the scorer on (labels, perturbed predictions), both
weighted by the same optional per-row scale factors, and `direction`
`+1`/`-1` by scorer monotonicity; the result is always non-negative, and
a measured improvement from perturbation contributes exactly 0. -/
theorem C3_conditional_permutation_formula (new_predictions original_predictions : List (List ℚ))
    (training_labels : Option (List ℚ)) (original_x perturbed_x : List ℚ)
    (scorer : ScorerSpec) (scaled : Bool) :
    compute_importance_via_conditional_permutation new_predictions original_predictions
      training_labels original_x perturbed_x scorer scaled
      = spec_conditional_permutation new_predictions original_predictions
        training_labels original_x perturbed_x scorer scaled ∧
    0 ≤ compute_importance_via_conditional_permutation new_predictions original_predictions
      training_labels original_x perturbed_x scorer scaled ∧
    ((if scorer.type = ScorerType.increasing then (1 : ℚ) else -1) *
        (scorer.score training_labels original_predictions
          (if scaled then some (importance_scaler original_x perturbed_x) else none) -
        scorer.score training_labels new_predictions
          (if scaled then some (importance_scaler original_x perturbed_x) else none)) ≤ 0 →
      compute_importance_via_conditional_permutation new_predictions original_predictions
        training_labels original_x perturbed_x scorer scaled = 0) := by
  have heq : compute_importance_via_conditional_permutation new_predictions
      original_predictions training_labels original_x perturbed_x scorer scaled
      = spec_conditional_permutation new_predictions original_predictions
        training_labels original_x perturbed_x scorer scaled := by
    unfold compute_importance_via_conditional_permutation spec_conditional_permutation
    rw [abs_of_nonneg (le_max_right _ _)]
    rw [max_comm, mul_comm]
  refine ⟨heq, abs_nonneg _, fun hle => ?_⟩
  rw [heq]
  unfold spec_conditional_permutation
  exact max_eq_left hle

/-- C3 witness: a perfect increasing scorer on which perturbation improves
the score; the clamped importance is exactly 0. -/
theorem C3_witness :
    ((if (ScorerSpec.mk (fun _ p _ => (p.headD []).headD 0) ScorerType.increasing).type
          = ScorerType.increasing then (1 : ℚ) else -1) *
      ((ScorerSpec.mk (fun _ p _ => (p.headD []).headD 0) ScorerType.increasing).score
          none [[3]] (if false then some (importance_scaler [] []) else none) -
       (ScorerSpec.mk (fun _ p _ => (p.headD []).headD 0) ScorerType.increasing).score
          none [[5]] (if false then some (importance_scaler [] []) else none)) ≤ 0) ∧
    compute_importance_via_conditional_permutation [[5]] [[3]] none [] []
      (ScorerSpec.mk (fun _ p _ => (p.headD []).headD 0) ScorerType.increasing) false = 0 := by
  constructor
  · norm_num
  · exact (C3_conditional_permutation_formula [[5]] [[3]] none [] []
      (ScorerSpec.mk (fun _ p _ => (p.headD []).headD 0) ScorerType.increasing) false).2.2
      (by norm_num)

/-- C9: running with concurrency forced to 1 produces exactly the same raw
per-feature importance mapping — and the same final result — as running
with parallel dispatch whose pool fails: both code paths reduce to the
same sequential execution of the same task list (the embedded model,
sampler and scorer are pure functions, hence deterministic). -/
theorem C9_sequential_and_fallback_equivalent (ctx : FIContext) (p : PoolBehavior)
    (filter_classes : Option (List String)) (n_jobs : ℤ) (k : ℕ) (n_samples : ℕ)
    (method : String) (use_scaling : Bool) (ascending : Bool) :
    fiRaw { ctx with pool := p } filter_classes 1 n_samples method use_scaling
      = fiRaw { ctx with pool := PoolBehavior.fail k } filter_classes n_jobs
          n_samples method use_scaling ∧
    feature_importance { ctx with pool := p } ascending filter_classes 1 n_samples
        method use_scaling
      = feature_importance { ctx with pool := PoolBehavior.fail k } ascending
          filter_classes n_jobs n_samples method use_scaling := by
  have hraw : fiRaw { ctx with pool := p } filter_classes 1 n_samples method use_scaling
      = fiRaw { ctx with pool := PoolBehavior.fail k } filter_classes n_jobs
          n_samples method use_scaling := by
    unfold fiRaw
    have hval : fiValidate { ctx with pool := p } filter_classes method
        = fiValidate { ctx with pool := PoolBehavior.fail k } filter_classes method := rfl
    have htasks : fiTasks { ctx with pool := p } n_samples method use_scaling
        = fiTasks { ctx with pool := PoolBehavior.fail k } n_samples method use_scaling := rfl
    have hcf : ({ ctx with pool := p } : FIContext).pool_creation_fails
        = ({ ctx with pool := PoolBehavior.fail k } : FIContext).pool_creation_fails := rfl
    rw [runTasks_eq_collectResults, runTasks_eq_collectResults, ← hval, ← htasks, ← hcf]
  refine ⟨hraw, ?_⟩
  unfold feature_importance
  rw [hraw]

/-- Whether `msg` names (contains as a contiguous substring) the string
`sub` — the reading of "the message names the valid method choices" used
for C8. -/
def strMentions (msg sub : String) : Bool :=
  msg.data.tails.any (fun t => sub.data.isPrefixOf t)

theorem isPrefixOf_self (l : List Char) : l.isPrefixOf l = true := by
  induction l with
  | nil => rfl
  | cons c cs ih => simp [List.isPrefixOf, ih]

theorem self_mem_tails (l : List Char) : l ∈ l.tails := by
  cases l <;> simp [List.tails]

theorem mem_tails_append (l₁ l₂ : List Char) : l₂ ∈ (l₁ ++ l₂).tails := by
  induction l₁ with
  | nil => simp [self_mem_tails l₂]
  | cons c cs ih => simp [List.tails, Or.inr ih]

theorem strMentions_append (a b : String) : strMentions (a ++ b) b = true := by
  unfold strMentions
  rw [List.any_eq_true]
  refine ⟨b.data, ?_, isPrefixOf_self b.data⟩
  have hdata : (a ++ b).data = a.data ++ b.data := by
    cases a; cases b; rfl
  rw [hdata]
  exact mem_tails_append a.data b.data

/-- A concrete scorer used to instantiate counterexamples and witnesses. -/
def trivialScorer : ScorerSpec :=
  { score := fun _ _ _ => 0, type := ScorerType.increasing }

/-- C6 counterexample: at `n_jobs = 1` a pool object IS created (the
source runs `executor_instance = Pool(n_jobs)` unconditionally, before
the `n_jobs == 1` guard), contradicting "no pool is created at all in
that case"; and `n_jobs = 0` is not mapped to "use all available
parallelism" (Python `None`): the source line `None if n_jobs < 0 else
n_jobs` passes `0` through to the `Pool` constructor. -/
theorem C6_counterexample :
    (featureImportanceTrace 1 PoolBehavior.ok []).poolCreated = true ∧
    resolveNJobs 0 = some 0 ∧ resolveNJobs 0 ≠ none := by
  refine ⟨rfl, rfl, by simp [resolveNJobs]⟩

/-- C6 amended: a strictly negative worker count means all available
parallelism (`None` is passed to the pool); `n_jobs = 0` is passed
through as a pool size of `0` (not "all available parallelism"); and a
worker count of exactly 1 forces sequential execution — the parallel
mapper is never invoked and the fallback always runs the task set
sequentially — but a pool object is still created (and later released),
rather than pool creation being bypassed. -/
theorem C6_amended_concurrency (n : ℤ) (hn : n < 0) (pool : PoolBehavior)
    (tasks : List (Except SkaterError (String × ℚ))) :
    resolveNJobs n = none ∧
    resolveNJobs 0 = some 0 ∧
    (featureImportanceTrace 1 pool tasks).mapperInvoked = false ∧
    (featureImportanceTrace 1 pool tasks).ranSequentialFallback = true ∧
    (featureImportanceTrace 1 pool tasks).poolCreated = true ∧
    runTasks (resolveNJobs 1) pool tasks = collectResults tasks := by
  refine ⟨by simp [resolveNJobs, hn], rfl, ?_, ?_, rfl, runTasks_eq_collectResults _ _ _⟩
  · simp [featureImportanceTrace, resolveNJobs]
  · simp [featureImportanceTrace, resolveNJobs]

/-- C6 witness: the amended statement instantiated at `n = -1` with a
healthy pool and an empty task list. -/
theorem C6_witness :
    (-1 : ℤ) < 0 ∧
    (resolveNJobs (-1) = none ∧
     resolveNJobs 0 = some 0 ∧
     (featureImportanceTrace 1 PoolBehavior.ok []).mapperInvoked = false ∧
     (featureImportanceTrace 1 PoolBehavior.ok []).ranSequentialFallback = true ∧
     (featureImportanceTrace 1 PoolBehavior.ok []).poolCreated = true ∧
     runTasks (resolveNJobs 1) PoolBehavior.ok [] = collectResults []) :=
  ⟨by norm_num, C6_amended_concurrency (-1) (by norm_num) PoolBehavior.ok []⟩

/-- C7: evaluation of the `importance_scaler` of the source at the failing
input `original_x = [0, 1]`, `perturbed_x = [0, 2]`.  The per-row scales
prescribed by the formula `|perturbed - original| / (max - min)` are
`[0, 1]` — not all zero — yet the code returns the uniform fallback
`[1, 1]`, because its guard `sum(scales == 0)` triggers when ANY row
has a zero scale, not only when every scale is zero as the claim (and
spec) state. -/
theorem C7_scaler_any_zero_eval :
    importance_scaler [0, 1] [0, 2] = [1, 1] ∧
    List.zipWith (fun p o => |p - o| / (listMax [(0 : ℚ), 1] - listMin [(0 : ℚ), 1]))
      [(0 : ℚ), 2] [(0 : ℚ), 1] = [0, 1] ∧
    ¬ (∀ s ∈ [(0 : ℚ), 1], s = 0) := by
  refine ⟨?_, ?_, ?_⟩
  · simp +decide [importance_scaler, listMax, listMin, List.zipWith, List.countP,
      List.countP.go, List.replicate]
    norm_num
  · simp [listMax, listMin, List.zipWith]
    norm_num
  · intro h
    have := h 1 (by simp)
    norm_num at this

/-- C8 counterexample: for the unrecognized method string "foo" the
computation fails with the `KeyError`, but the error message does not
name either of the two valid method choices. -/
theorem C8_counterexample :
    compute_importance [] [] [] [] none "foo" false trivialScorer
      = Except.error (SkaterError.keyError
          "Unrecongized method for computing feature_importance: foo") ∧
    strMentions "Unrecongized method for computing feature_importance: foo"
      "output-variance" = false ∧
    strMentions "Unrecongized method for computing feature_importance: foo"
      "conditional-permutation" = false := by
  refine ⟨by rfl, by decide, by decide⟩

/-- C8 amended: for every method string other than "output-variance" and
"conditional-permutation", computing an importance always fails with the
validation error (a `KeyError`), whose message names the unrecognized
method itself — not the two valid method choices. -/
theorem C8_amended_unrecognized_method (new_predictions original_predictions : List (List ℚ))
    (original_x perturbed_x : List ℚ) (training_labels : Option (List ℚ))
    (scaled : Bool) (scorer : ScorerSpec) (method : String)
    (h1 : method ≠ "output-variance") (h2 : method ≠ "conditional-permutation") :
    compute_importance new_predictions original_predictions original_x perturbed_x
      training_labels method scaled scorer
      = Except.error (SkaterError.keyError
          ("Unrecongized method for computing feature_importance: " ++ method)) ∧
    strMentions ("Unrecongized method for computing feature_importance: " ++ method)
      method = true := by
  constructor
  · unfold compute_importance
    rw [if_neg h1, if_neg h2]
  · exact strMentions_append _ method

/-- C8 witness: the amended statement instantiated at method "foo". -/
theorem C8_witness :
    ("foo" ≠ "output-variance") ∧ ("foo" ≠ "conditional-permutation") ∧
    (compute_importance [[1]] [[2]] [3] [4] none "foo" true trivialScorer
      = Except.error (SkaterError.keyError
          ("Unrecongized method for computing feature_importance: " ++ "foo")) ∧
     strMentions ("Unrecongized method for computing feature_importance: " ++ "foo")
      "foo" = true) :=
  ⟨by decide, by decide,
   C8_amended_unrecognized_method [[1]] [[2]] [3] [4] none true trivialScorer "foo"
     (by decide) (by decide)⟩

/-- C10: the computed importances are independent of `filter_classes`:
for any two values that pass the subset validation (including `None`),
and otherwise identical arguments and collaborator behaviour,
`feature_importance` returns identical results — the argument is only
validated against the target classes of the model and never consulted
afterwards. -/
theorem C10_filter_classes_independence (ctx : FIContext) (ascending : Bool)
    (fc1 fc2 : Option (List String)) (n_jobs : ℤ) (n_samples : ℕ) (method : String)
    (use_scaling : Bool)
    (h1 : filterClassesOk ctx.model.target_names fc1 = true)
    (h2 : filterClassesOk ctx.model.target_names fc2 = true) :
    feature_importance ctx ascending fc1 n_jobs n_samples method use_scaling =
      feature_importance ctx ascending fc2 n_jobs n_samples method use_scaling := by
  have hval : fiValidate ctx fc1 method = fiValidate ctx fc2 method := by
    unfold fiValidate
    rw [h1, h2]
  unfold feature_importance fiRaw
  rw [hval]

/-- Concrete collaborators for witnesses: an identity predictor over a
two-row, one-feature dataset, with a column sampler that swaps the two
values and an in-order two-element row subsample. -/
def witnessModel : Model :=
  { predict := fun rows => rows
    static_predictor := fun rows => rows
    target_names := ["a", "b"]
    default_scorer := trivialScorer }

/-- The witness interpretation context built on `witnessModel`. -/
def witnessCtx : FIContext :=
  { model := witnessModel
    data_set := { rows := [[1], [2]], feature_names := ["x"] }
    training_labels := none
    feature_info := fun _ => false
    column_sampler := fun _ _ _ => [2, 1]
    subsample_idx := [0, 1]
    pool_creation_fails := false
    pool := PoolBehavior.ok }

/-- C10 witness: `filter_classes = None` and `filter_classes = ["a"]`
both pass validation against target classes `["a", "b"]`, and the
theorem yields equal results for the two calls. -/
theorem C10_witness :
    filterClassesOk witnessCtx.model.target_names none = true ∧
    filterClassesOk witnessCtx.model.target_names (some ["a"]) = true ∧
    feature_importance witnessCtx true none (-1) 5 "output-variance" false =
      feature_importance witnessCtx true (some ["a"]) (-1) 5 "output-variance" false :=
  ⟨by decide, by decide,
   C10_filter_classes_independence witnessCtx true none (some ["a"]) (-1) 5
     "output-variance" false (by decide) (by decide)⟩

/-- A context identical to `witnessCtx` except that the `Pool(n_jobs)`
constructor call raises for this invocation. -/
def poolFailCtx : FIContext := { witnessCtx with pool_creation_fails := true }

/-- C5 counterexample: a failure of worker-pool CREATION is not recovered
by the sequential fallback, contradicting the claim that "worker-pool
creation, task submission, or parallel execution" failures all fall back:
the source runs `executor_instance = Pool(n_jobs)` at line 111, OUTSIDE
the `try/except` that begins at line 135, so the creation error
propagates to the caller — even though (second conjunct) the sequential
run of the identical task set would have succeeded. -/
theorem C5_counterexample :
    fiRaw poolFailCtx none (-1) 5 "output-variance" false
      = Except.error (SkaterError.poolCreationError "worker pool creation failed") ∧
    collectResults (fiTasks poolFailCtx 5 "output-variance" false)
      = Except.ok [("x", 1)] ∧
    (Except.error (SkaterError.poolCreationError "worker pool creation failed")
      ≠ (Except.ok [("x", (1 : ℚ))] : Except SkaterError (List (String × ℚ)))) := by
  refine ⟨?_, ?_, fun h => Except.noConfusion h⟩
  · simp +decide [fiRaw, fiValidate, filterClassesOk, poolFailCtx, witnessCtx, witnessModel]
  · simp +decide [fiTasks, poolFailCtx, witnessCtx, witnessModel, chooseInputs,
      DataManager.n_rows, DataManager.feature_ids, compute_feature_importance,
      DataManager.getColumn, DataManager.setColumn, compute_importance,
      compute_importance_via_output_variance, matrixMean, collectResults, List.zipWith,
      List.indexOf, List.findIdx, List.findIdx.go, Except.map]
    norm_num

/-- C5 amended: when task submission or parallel execution fails (after
the worker pool was successfully created) — at any point, with any number
of already-completed results — the orchestrator discards the partial
results and re-runs the complete task set sequentially in the current
execution context; an all-ok task set then succeeds with exactly the
per-task values, and a failing task set propagates the first per-task
error directly.  A failure of worker-pool creation itself, however,
occurs outside the `try/except` and propagates directly to the caller
with no sequential fallback. -/
theorem C5_amended_dispatch_failure (n_jobs : Option ℤ) (completed : ℕ)
    (tasks : List (Except SkaterError (String × ℚ)))
    (vals pre : List (String × ℚ)) (e : SkaterError)
    (post : List (Except SkaterError (String × ℚ)))
    (ctx : FIContext) (filter_classes : Option (List String)) (nj : ℤ) (ns : ℕ)
    (method : String) (use_scaling : Bool)
    (hcf : ctx.pool_creation_fails = true)
    (hval : fiValidate ctx filter_classes method = none) :
    runTasks n_jobs (PoolBehavior.fail completed) tasks = collectResults tasks ∧
    runTasks n_jobs (PoolBehavior.fail completed) (vals.map Except.ok) = Except.ok vals ∧
    runTasks n_jobs (PoolBehavior.fail completed)
      (pre.map Except.ok ++ Except.error e :: post) = Except.error e ∧
    fiRaw ctx filter_classes nj ns method use_scaling
      = Except.error (SkaterError.poolCreationError "worker pool creation failed") := by
  refine ⟨runTasks_eq_collectResults _ _ _, ?_, ?_, ?_⟩
  · rw [runTasks_eq_collectResults]
    exact collectResults_map_ok vals
  · rw [runTasks_eq_collectResults]
    exact collectResults_append_error pre e post
  · unfold fiRaw
    rw [hval]
    show (if ctx.pool_creation_fails then
        Except.error (SkaterError.poolCreationError "worker pool creation failed")
      else runTasks (resolveNJobs nj) ctx.pool (fiTasks ctx ns method use_scaling))
      = Except.error (SkaterError.poolCreationError "worker pool creation failed")
    rw [hcf]
    simp

/-- C5 witness: the amended statement instantiated at a concrete failing
pool (2 tasks already completed before the failure), a concrete all-ok
task list, a concrete task list with one per-task error, and the concrete
creation-failing context. -/
theorem C5_witness :
    poolFailCtx.pool_creation_fails = true ∧
    fiValidate poolFailCtx none "output-variance" = none ∧
    (runTasks (some 4) (PoolBehavior.fail 2) [Except.ok ("x", 1)]
        = collectResults [Except.ok ("x", 1)] ∧
     runTasks (some 4) (PoolBehavior.fail 2) ([("x", (1 : ℚ))].map Except.ok)
        = Except.ok [("x", 1)] ∧
     runTasks (some 4) (PoolBehavior.fail 2)
        ([("y", (2 : ℚ))].map Except.ok ++
          Except.error (SkaterError.keyError "boom") :: [])
        = Except.error (SkaterError.keyError "boom") ∧
     fiRaw poolFailCtx none (-1) 5 "output-variance" false
        = Except.error (SkaterError.poolCreationError "worker pool creation failed")) :=
  ⟨rfl, by decide,
   C5_amended_dispatch_failure (some 4) 2 [Except.ok ("x", 1)] [("x", 1)] [("y", 2)]
     (SkaterError.keyError "boom") [] poolFailCtx none (-1) 5 "output-variance" false
     rfl (by decide)⟩

/-- C4: if the dataset has fewer than `n_samples` rows, the chosen
baseline is literally the full dataset; if it has at most `n_samples`
rows the baseline rows are, up to the order of a size-`n`-out-of-`n`
draw, exactly the full dataset (at the boundary `n_rows = n_samples` the
source takes the subsample branch, and a draw of all `n` rows without
replacement is a permutation of them; the spec declares row order
irrelevant); otherwise the baseline is a subsample of exactly
`n_samples` rows of the dataset, drawn without replacement (the
subsample index list is injective); and the per-feature task list
computes baseline predictions exactly once on that fixed baseline — the
task of every feature receives the same `model.predict` value of the
same chosen input rows.  The subsample hypotheses are the specification
model of `DataManager.generate_sample` (not part of the sampled source);
the size hypothesis is conditional on the branch that actually draws the
subsample (`n_samples <= n_rows`), since the sampler is never invoked on
the full-dataset branch — so the theorem is instantiable in both
regimes. -/
theorem C4_baseline_selection (ctx : FIContext) (n_samples : ℕ) (method : String)
    (use_scaling : Bool)
    (hnd : ctx.subsample_idx.Nodup)
    (hlen : n_samples ≤ ctx.data_set.n_rows → ctx.subsample_idx.length = n_samples)
    (hmem : ∀ i ∈ ctx.subsample_idx, i < ctx.data_set.n_rows) :
    (ctx.data_set.n_rows < n_samples →
      chooseInputs ctx.data_set n_samples ctx.subsample_idx = ctx.data_set) ∧
    (ctx.data_set.n_rows ≤ n_samples →
      (chooseInputs ctx.data_set n_samples ctx.subsample_idx).rows.Perm ctx.data_set.rows) ∧
    (n_samples < ctx.data_set.n_rows →
      (chooseInputs ctx.data_set n_samples ctx.subsample_idx).rows.length = n_samples ∧
      ∀ r ∈ (chooseInputs ctx.data_set n_samples ctx.subsample_idx).rows,
        r ∈ ctx.data_set.rows) ∧
    (fiTasks ctx n_samples method use_scaling =
      ctx.data_set.feature_ids.map (fun feature_id =>
        compute_feature_importance feature_id
          (chooseInputs ctx.data_set n_samples ctx.subsample_idx).rows
          ctx.model.static_predictor
          (ctx.model.predict (chooseInputs ctx.data_set n_samples ctx.subsample_idx).rows)
          ctx.feature_info ctx.data_set.feature_names ctx.column_sampler
          (if method = "conditional-permutation" then ctx.training_labels else none)
          method use_scaling ctx.model.default_scorer)) := by
  refine ⟨?_, ?_, ?_, rfl⟩
  · intro hlt
    unfold chooseInputs
    rw [if_neg (not_le.mpr hlt)]
  · intro hle
    unfold chooseInputs
    by_cases hc : n_samples ≤ ctx.data_set.n_rows
    · rw [if_pos hc]
      have heq : n_samples = ctx.data_set.n_rows := le_antisymm hc hle
      exact generate_sample_rows_perm ctx.data_set.rows ctx.subsample_idx hnd
        (by rw [hlen hc, heq]; rfl) hmem
    · rw [if_neg hc]
  · intro hlt
    unfold chooseInputs
    rw [if_pos (le_of_lt hlt)]
    constructor
    · simp [generate_sample_rows, hlen (le_of_lt hlt)]
    · intro r hr
      unfold generate_sample_rows at hr
      obtain ⟨i, hi, he⟩ := List.mem_map.mp hr
      rw [← he]
      have hilt : i < ctx.data_set.rows.length := hmem i hi
      rw [List.getD_eq_getElem?_getD, List.getElem?_eq_getElem hilt]
      exact List.getElem_mem _

/-- C4 witness: both regimes on the two-row dataset.  With
`n_samples = 2` (the boundary, which takes the subsample branch) the
baseline rows are a permutation of the full dataset; with `n_samples = 5`
(more than the 2 rows, the case with a small dataset and the default
5000) the chosen baseline IS the full dataset. -/
theorem C4_witness :
    (witnessCtx.subsample_idx.Nodup ∧
     (2 ≤ witnessCtx.data_set.n_rows → witnessCtx.subsample_idx.length = 2) ∧
     (∀ i ∈ witnessCtx.subsample_idx, i < witnessCtx.data_set.n_rows) ∧
     witnessCtx.data_set.n_rows ≤ 2 ∧
     (chooseInputs witnessCtx.data_set 2 witnessCtx.subsample_idx).rows.Perm
       witnessCtx.data_set.rows) ∧
    ((5 ≤ witnessCtx.data_set.n_rows → witnessCtx.subsample_idx.length = 5) ∧
     witnessCtx.data_set.n_rows < 5 ∧
     chooseInputs witnessCtx.data_set 5 witnessCtx.subsample_idx = witnessCtx.data_set) :=
  ⟨⟨by decide, by decide, by decide, by decide,
    (C4_baseline_selection witnessCtx 2 "output-variance" false (by decide) (by decide)
      (by decide)).2.1 (by decide)⟩,
   ⟨by decide, by decide,
    (C4_baseline_selection witnessCtx 5 "output-variance" false (by decide) (by decide)
      (by decide)).1 (by decide)⟩⟩

theorem divide_zerosafe_of_ne (a b : ℚ) (hb : b ≠ 0) : divide_zerosafe a b = a / b := by
  unfold divide_zerosafe
  rw [if_neg]
  rintro ⟨_, h⟩
  exact hb h

theorem map_divide_zerosafe_sum (l : List (String × ℚ)) (s : ℚ) (hs : s ≠ 0) :
    ((l.map (fun p => (p.1, divide_zerosafe p.2 s))).map Prod.snd).sum
      = (l.map Prod.snd).sum / s := by
  induction l with
  | nil => simp
  | cons x xs ih =>
    simp only [List.map_cons, List.sum_cons]
    rw [divide_zerosafe_of_ne _ _ hs, ih, add_div]

theorem fiFinalize_ok (imps dist : List (String × ℚ))
    (h : fiFinalize imps = Except.ok dist) :
    0 < (imps.map Prod.snd).sum ∧
    dist = imps.map (fun p => (p.1, divide_zerosafe p.2 ((imps.map Prod.snd).sum))) := by
  unfold fiFinalize at h
  by_cases hc : 0 < (imps.map Prod.snd).sum
  · rw [if_neg (by simpa using hc)] at h
    simp only [Except.ok.injEq] at h
    exact ⟨hc, h.symm⟩
  · rw [if_pos (by simpa using hc)] at h
    simp at h

theorem fiFinalize_nonpos (imps : List (String × ℚ))
    (h : (imps.map Prod.snd).sum ≤ 0) :
    fiFinalize imps = Except.error (SkaterError.featureImportanceError fiSumErrMsg) := by
  unfold fiFinalize
  rw [if_pos (by simpa using not_lt.mpr h)]

theorem fiRaw_ok_props (ctx : FIContext) (filter_classes : Option (List String))
    (n_jobs : ℤ) (n_samples : ℕ) (method : String) (use_scaling : Bool)
    (raws : List (String × ℚ))
    (h : fiRaw ctx filter_classes n_jobs n_samples method use_scaling = Except.ok raws) :
    raws.map Prod.fst = ctx.data_set.feature_ids ∧
    (∀ p ∈ raws, 0 ≤ p.2) ∧
    raws.length = ctx.data_set.feature_ids.length := by
  unfold fiRaw at h
  cases hv : fiValidate ctx filter_classes method with
  | some e => rw [hv] at h; simp at h
  | none =>
    rw [hv] at h
    have h' : (if ctx.pool_creation_fails then
        Except.error (SkaterError.poolCreationError "worker pool creation failed")
      else runTasks (resolveNJobs n_jobs) ctx.pool (fiTasks ctx n_samples method use_scaling))
        = Except.ok raws := h
    clear h
    cases hcf : ctx.pool_creation_fails with
    | true => rw [hcf] at h'; simp at h'
    | false =>
    rw [hcf] at h'
    simp only [Bool.false_eq_true, if_false] at h'
    rw [runTasks_eq_collectResults] at h'
    simp only [fiTasks] at h'
    rename' h' => h
    refine ⟨?_, ?_, ?_⟩
    · have hfst := collectResults_map_fst ctx.data_set.feature_ids _ (fun a => a)
        (fun a v hav => (compute_feature_importance_ok _ _ _ _ _ _ _ _ _ _ _ _ hav).1)
        raws h
      simpa using hfst
    · intro p hp
      have hmem := collectResults_ok_mem _ _ h p hp
      obtain ⟨fid, _, hgf⟩ := List.mem_map.mp hmem
      exact (compute_feature_importance_ok _ _ _ _ _ _ _ _ _ _ _ _ hgf).2
    · have hl := collectResults_ok_length _ _ h
      simpa using hl

/-- C1: for every call to `feature_importance` that returns normally, the
returned importance distribution has one entry per feature id of the
dataset (the keys are a permutation of the feature ids, and the lengths
agree), every entry is non-negative, and the entries sum to exactly 1;
and if instead the sum of the raw per-feature importances is not strictly
positive, the call fails with the `FeatureImportanceError` (before any
normalization). -/
theorem C1_distribution_normalized (ctx : FIContext) (ascending : Bool)
    (filter_classes : Option (List String)) (n_jobs : ℤ) (n_samples : ℕ)
    (method : String) (use_scaling : Bool)
    (hnd : ctx.data_set.feature_ids.Nodup) :
    (∀ dist, feature_importance ctx ascending filter_classes n_jobs n_samples method
        use_scaling = Except.ok dist →
      dist.length = ctx.data_set.feature_ids.length ∧
      (dist.map Prod.fst).Perm ctx.data_set.feature_ids ∧
      (∀ p ∈ dist, 0 ≤ p.2) ∧
      (dist.map Prod.snd).sum = 1) ∧
    (∀ raws, fiRaw ctx filter_classes n_jobs n_samples method use_scaling = Except.ok raws →
      (raws.map Prod.snd).sum ≤ 0 →
      feature_importance ctx ascending filter_classes n_jobs n_samples method use_scaling
        = Except.error (SkaterError.featureImportanceError fiSumErrMsg)) := by
  constructor
  · intro dist hdist
    unfold feature_importance at hdist
    cases hraw : fiRaw ctx filter_classes n_jobs n_samples method use_scaling with
    | error e => rw [hraw] at hdist; simp at hdist
    | ok raws =>
      rw [hraw] at hdist
      obtain ⟨hfst, hpos, hlen⟩ := fiRaw_ok_props _ _ _ _ _ _ _ hraw
      have hmerged : mergeImportances raws = raws :=
        mergeImportances_eq_self raws (by rw [hfst]; exact hnd)
      have hdist' : fiFinalize (sort_values ascending (mergeImportances raws))
          = Except.ok dist := hdist
      rw [hmerged] at hdist'
      have hperm : (sort_values ascending raws).Perm raws := sort_values_perm ascending raws
      have hsum_eq : ((sort_values ascending raws).map Prod.snd).sum
          = (raws.map Prod.snd).sum := (hperm.map Prod.snd).sum_eq
      obtain ⟨hsumpos, hdisteq⟩ := fiFinalize_ok _ _ hdist'
      have hs_ne : ((sort_values ascending raws).map Prod.snd).sum ≠ 0 := ne_of_gt hsumpos
      refine ⟨?_, ?_, ?_, ?_⟩
      · rw [hdisteq]
        simp [hperm.length_eq, hlen]
      · rw [hdisteq]
        have : ((sort_values ascending raws).map
            (fun p => (p.1, divide_zerosafe p.2 (((sort_values ascending raws).map
              Prod.snd).sum)))).map Prod.fst = (sort_values ascending raws).map Prod.fst := by
          simp [List.map_map, Function.comp]
        rw [this, ← hfst]
        exact hperm.map Prod.fst
      · intro p hp
        rw [hdisteq] at hp
        obtain ⟨q, hq, he⟩ := List.mem_map.mp hp
        rw [← he]
        have hq' : q ∈ raws := hperm.mem_iff.mp hq
        have h0 : 0 ≤ q.2 := hpos q hq'
        rw [divide_zerosafe_of_ne _ _ hs_ne]
        exact div_nonneg h0 (le_of_lt hsumpos)
      · rw [hdisteq]
        rw [map_divide_zerosafe_sum _ _ hs_ne]
        exact div_self hs_ne
  · intro raws hraw hsum
    unfold feature_importance
    rw [hraw]
    obtain ⟨hfst, _, _⟩ := fiRaw_ok_props _ _ _ _ _ _ _ hraw
    have hmerged : mergeImportances raws = raws :=
      mergeImportances_eq_self raws (by rw [hfst]; exact hnd)
    show fiFinalize (sort_values ascending (mergeImportances raws))
      = Except.error (SkaterError.featureImportanceError fiSumErrMsg)
    rw [hmerged]
    apply fiFinalize_nonpos
    rw [((sort_values_perm ascending raws).map Prod.snd).sum_eq]
    exact hsum

/-- C1 witness: the two-row, one-feature identity model; the call returns
normally with the single entry `("x", 1)`, which satisfies all the stated
distribution properties. -/
theorem C1_witness :
    witnessCtx.data_set.feature_ids.Nodup ∧
    feature_importance witnessCtx true none (-1) 5 "output-variance" false
      = Except.ok [("x", 1)] ∧
    ([("x", (1 : ℚ))].length = witnessCtx.data_set.feature_ids.length ∧
     ([("x", (1 : ℚ))].map Prod.fst).Perm witnessCtx.data_set.feature_ids ∧
     (∀ p ∈ [("x", (1 : ℚ))], 0 ≤ p.2) ∧
     ([("x", (1 : ℚ))].map Prod.snd).sum = 1) := by
  have heval : feature_importance witnessCtx true none (-1) 5 "output-variance" false
      = Except.ok [("x", 1)] := by
    simp +decide [feature_importance, fiRaw, fiValidate, filterClassesOk, witnessCtx,
      witnessModel, fiTasks, chooseInputs, DataManager.n_rows, DataManager.feature_ids,
      compute_feature_importance, DataManager.getColumn, DataManager.setColumn,
      compute_importance, compute_importance_via_output_variance, matrixMean, resolveNJobs,
      runTasks, parallelAttempt, collectResults, List.zipWith, List.indexOf, List.findIdx,
      List.findIdx.go, mergeImportances, dictUpdate, sort_values, Except.map, fiFinalize,
      divide_zerosafe]
    norm_num
  exact ⟨by decide, heval,
    (C1_distribution_normalized witnessCtx true none (-1) 5 "output-variance" false
      (by decide)).1 [("x", 1)] heval⟩

end Skater
